import Mathlib

set_option maxRecDepth 8192

/-!
Verification development for `pedigree.py` (BurrowD Pedigree Grapher).

The Python module is shallowly embedded:
  * a Python `dict` keyed by strings is an association list with no duplicate
    keys; assignment replaces the value in place (as a `dict` keeps the
    original insertion position on overwrite) and otherwise appends;
  * Python `str.strip()` and `str.split(sep)` with a one-character separator
    are re-implemented structurally over the character list of the string, so
    that every definition is kernel-computable on concrete inputs;
  * a Python `set` is a list used only through membership;
  * the `ValueError` a tuple unpacking can raise is an `Except.error`.
-/

/-- One parsed row of the CSV, as stored in the `relationships` dict
(`pedigree.py`, lines 60-67). -/
structure Record where
  father_id : String
  mother_id : String
  sex : String
  usgs_band_id : String
  hatch_year : String
  aux_id : String
deriving DecidableEq, Inhabited

/-- The `relationships` dict: individual id to record, no duplicate keys. -/
abbrev Store := List (String × Record)

/-- Dict lookup: `relationships[k]` / `relationships.get(k)`. -/
def getV : Store → String → Option Record
  | [], _ => none
  | (k', v) :: rest, k => if k' = k then some v else getV rest k

/-- Dict assignment `relationships[k] = v`: overwrite in place, else append. -/
def setV : Store → String → Record → Store
  | [], k, v => [(k, v)]
  | (k', v') :: rest, k, v =>
    if k' = k then (k, v) :: rest else (k', v') :: setV rest k v

/-- Dict key membership: `k in relationships`. -/
def memK (s : Store) (k : String) : Bool := (getV s k).isSome

/-- Total lookup for keys known to be present (Python raises `KeyError`
otherwise; all call sites below are guarded). -/
def getD (s : Store) (k : String) : Record := (getV s k).getD default

/-- The invariant every Python dict satisfies: keys are pairwise distinct. -/
def keysNodup (s : Store) : Prop := (s.map Prod.fst).Nodup

instance keysNodupDecidable (s : Store) : Decidable (keysNodup s) :=
  inferInstanceAs (Decidable (s.map Prod.fst).Nodup)

/-- Python `str.split(sep)` for a one-character separator, over char lists:
`"".split(",") = [""]`, `",,".split(",") = ["", "", ""]`. -/
def splitOnChar (sep : Char) : List Char → List (List Char)
  | [] => [[]]
  | c :: cs =>
    match splitOnChar sep cs with
    | [] => [[]]
    | g :: gs => if c = sep then [] :: g :: gs else (c :: g) :: gs

/-- Python `str.strip()`: drop whitespace at both ends. -/
def trimChars (cs : List Char) : List Char :=
  ((cs.dropWhile Char.isWhitespace).reverse.dropWhile Char.isWhitespace).reverse

/-- `line.strip()` on strings. -/
def pyStrip (s : String) : String := String.mk (trimChars s.data)

/-- `s.split(sep)` on strings (one-character separator). -/
def pySplit (s : String) (sep : Char) : List String :=
  (splitOnChar sep s.data).map String.mk

/-- The body of the parse loop after deduplication and the `len(parts) < 7`
guard (`pedigree.py`, lines 43-67): unpack the 7 fields — a `ValueError` if
there are more than 7 — normalize, and store. -/
def parseFields (store : Store) (parts : List String) : Except String Store :=
  match parts with
  | [individual_id, father_id, mother_id, sex, usgs_band_id, hatch_year, aux_id] =>
    Except.ok (setV store individual_id
      { father_id := father_id
        mother_id := mother_id
        sex := sex
        usgs_band_id := if usgs_band_id ≠ "0" then usgs_band_id else "N/A"
        hatch_year := if hatch_year ≠ "" then hatch_year else "N/A"
        aux_id := if aux_id ≠ "0" then aux_id else "N/A" })
  | _ => Except.error "ValueError: too many values to unpack (expected 7)"

/-- One iteration of the parse loop (`pedigree.py`, lines 29-67). The state is
the `seen_lines` set paired with the `relationships` dict. -/
def parseStep (state : List String × Store) (rawLine : String) :
    Except String (List String × Store) :=
  let line := pyStrip rawLine
  if line = "" then Except.ok state
  else if line ∈ state.1 then Except.ok state
  else
    let parts := pySplit line ','
    if parts.length < 7 then Except.ok (line :: state.1, state.2)
    else
      match parseFields state.2 parts with
      | Except.ok store' => Except.ok (line :: state.1, store')
      | Except.error e => Except.error e

/-- The parse loop over the list of lines. -/
def parseLinesAux : (List String × Store) → List String → Except String (List String × Store)
  | state, [] => Except.ok state
  | state, line :: rest =>
    match parseStep state line with
    | Except.ok state' => parseLinesAux state' rest
    | Except.error e => Except.error e

/-- Parse a list of lines starting from the empty `seen_lines` set and the
empty `relationships` dict. -/
def parseLines (lines : List String) : Except String (List String × Store) :=
  parseLinesAux ([], []) lines

/-- `parse_ped_file` (`pedigree.py`, lines 21-69): split the decoded upload on
newlines, run the loop, return the `relationships` dict. -/
def parse_ped_file (fileContents : String) : Except String Store :=
  (parseLines (pySplit fileContents '\n')).map (fun st => st.2)

example : pySplit "a,b" ',' = ["a", "b"] := by decide
example : pyStrip "  x y " = "x y" := by decide
example : parse_ped_file "x,0,0,1,0,,0" =
    Except.ok [("x", ⟨"0", "0", "1", "N/A", "N/A", "N/A"⟩)] := rfl

/-- The two mate candidates one row contributes to `get_mates`
(`pedigree.py`, lines 81-89): if the row's father is the queried individual,
its mother is a mate (when present in the store and not `"0"`), and
symmetrically. -/
def mateCandidates (relationships : Store) (individual_id : String)
    (p : String × Record) : List String :=
  (if p.2.father_id = individual_id ∧ memK relationships p.2.mother_id ∧
      p.2.mother_id ≠ "0" then [p.2.mother_id] else []) ++
  (if p.2.mother_id = individual_id ∧ memK relationships p.2.father_id ∧
      p.2.father_id ≠ "0" then [p.2.father_id] else [])

/-- `get_mates` (`pedigree.py`, lines 72-91). The Python `set` is modelled as
a list; only membership in it is ever used downstream, and insertion into a
set is idempotent, so duplicates in the list are harmless. -/
def get_mates (relationships : Store) (individual_id : String) : List String :=
  if memK relationships individual_id then
    relationships.foldr
      (fun p acc => mateCandidates relationships individual_id p ++ acc) []
  else []

/-- One iteration of the children loop of `filter_family`
(`pedigree.py`, lines 121-133): a row whose father or mother is the focal id
or one of its mates is added, gated by the optional hatch-year filter. -/
def childStep (individual_id : String) (mates : List String)
    (filter_year : Option String) (fam : Store) (p : String × Record) : Store :=
  if p.2.father_id = individual_id ∨ p.2.mother_id = individual_id ∨
      p.2.father_id ∈ mates ∨ p.2.mother_id ∈ mates then
    match filter_year with
    | none => setV fam p.1 p.2
    | some y => if p.2.hatch_year = y then setV fam p.1 p.2 else fam
  else fam

/-- Lines 106-114 of `pedigree.py`: the `family` dict seeded with the focal
individual and its father and mother when present in the store and not `"0"`. -/
def withParents (relationships : Store) (individual_id : String) : Store :=
  let father_id := (getD relationships individual_id).father_id
  let mother_id := (getD relationships individual_id).mother_id
  let fam0 := setV [] individual_id (getD relationships individual_id)
  let fam1 :=
    if memK relationships father_id ∧ father_id ≠ "0" then
      setV fam0 father_id (getD relationships father_id)
    else fam0
  if memK relationships mother_id ∧ mother_id ≠ "0" then
    setV fam1 mother_id (getD relationships mother_id)
  else fam1

/-- Lines 106-118 of `pedigree.py`: the `family` dict after also adding every
mate. -/
def familyCore (relationships : Store) (individual_id : String)
    (mates : List String) : Store :=
  mates.foldl
    (fun fam mate_id => setV fam mate_id (getD relationships mate_id))
    (withParents relationships individual_id)

/-- `filter_family` (`pedigree.py`, lines 94-135). An empty (Python-falsy) or
unknown focal id returns the input store unchanged. -/
def filter_family (relationships : Store) (individual_id : String)
    (filter_year : Option String) : Store :=
  if individual_id = "" ∨ ¬ memK relationships individual_id then relationships
  else
    relationships.foldl
      (childStep individual_id (get_mates relationships individual_id) filter_year)
      (familyCore relationships individual_id
        (get_mates relationships individual_id))

/-- A node statement accumulated into the DOT graph: id, label, shape and
fill color (`dot.node(...)`, `pedigree.py`, line 184; `style="filled"` is
constant and omitted). -/
structure NodeStmt where
  id : String
  label : String
  shape : String
  fillcolor : String
deriving DecidableEq

/-- An edge statement of the DOT graph (`dot.edge(...)`). -/
structure EdgeStmt where
  src : String
  dst : String
  color : String
deriving DecidableEq

/-- The DOT graph as the node and edge statements added to it. The two
`rank="same"` subgraphs are omitted from the model: in the source,
`create_node` always adds nodes to the outer `dot` object, so those
subgraphs carry no statements of their own. -/
structure Dot where
  nodes : List NodeStmt := []
  edges : List EdgeStmt := []
deriving DecidableEq

/-- The multi-line node label (`pedigree.py`, lines 160-172): the hatch-year
line only when the value is truthy and not `"N/A"`, the band and aux lines
only when non-empty. -/
def node_label (iid : String) (info : Record) : String :=
  String.intercalate "\x5cn"
    (["Individual: " ++ iid] ++
      (if info.hatch_year ≠ "" ∧ info.hatch_year ≠ "N/A" then
        ["Hatch Year: " ++ info.hatch_year] else []) ++
      (if info.usgs_band_id ≠ "" then
        ["Primary ID: " ++ info.usgs_band_id] else []) ++
      (if info.aux_id ≠ "" then ["Aux ID: " ++ info.aux_id] else []))

/-- `create_node` (`pedigree.py`, lines 157-185): draw a node once per id,
shaped and colored by the sex code. The accumulator pairs the graph with the
`drawn` set. -/
def create_node (relationships : Store) (acc : Dot × List String)
    (iid : String) : Dot × List String :=
  if iid ∉ acc.2 ∧ memK relationships iid then
    let info := getD relationships iid
    let shape := if info.sex = "1" then "box"
      else if info.sex = "2" then "ellipse" else "egg"
    let fillcolor := if info.sex = "1" then "lightblue"
      else if info.sex = "2" then "lightpink" else "gray"
    ({ acc.1 with
        nodes := acc.1.nodes ++
          [{ id := iid, label := node_label iid info, shape := shape,
             fillcolor := fillcolor }] },
      acc.2 ++ [iid])
  else acc

/-- `edge_color` (`pedigree.py`, lines 187-196). -/
def edge_color (relationships : Store) (parent_id : String) : String :=
  match getV relationships parent_id with
  | some parent_info =>
    if parent_info.sex = "1" then "blue"
    else if parent_info.sex = "2" then "red" else "gray"
  | none => "gray"

/-- Append one edge statement (`dot.edge(...)`). -/
def addEdge (acc : Dot × List String) (src dst color : String) :
    Dot × List String :=
  ({ acc.1 with edges := acc.1.edges ++ [{ src := src, dst := dst, color := color }] },
    acc.2)

/-- The unfocused branch of `generate_graph` (`pedigree.py`, lines 246-256):
every record becomes a node, and parent edges are drawn whenever the parent
id is a key of the store and not `"0"`. -/
def unfocusedGraph (relationships : Store) (acc0 : Dot × List String) : Dot :=
  let acc := relationships.foldl
    (fun acc p => create_node relationships acc p.1) acc0
  (relationships.foldl
    (fun acc p =>
      let pid := p.2.father_id
      let mid := p.2.mother_id
      let acc := if memK relationships pid ∧ pid ≠ "0" then
          addEdge acc pid p.1 (edge_color relationships pid)
        else acc
      if memK relationships mid ∧ mid ≠ "0" then
        addEdge acc mid p.1 (edge_color relationships mid)
      else acc)
    acc).1

/-- The focused branch of `generate_graph` (`pedigree.py`, lines 198-245). -/
def focusedGraph (relationships : Store) (fid : String) : Dot :=
  let acc0 : Dot × List String := ({}, [])
  let father_id := (getD relationships fid).father_id
  let mother_id := (getD relationships fid).mother_id
  let mates := get_mates relationships fid
  let acc :=
    if memK relationships father_id ∧ father_id ≠ "0" ∧
        memK relationships mother_id ∧ mother_id ≠ "0" then
      let acc := create_node relationships acc0 father_id
      let acc := create_node relationships acc mother_id
      let acc := addEdge acc father_id fid (edge_color relationships father_id)
      addEdge acc mother_id fid (edge_color relationships mother_id)
    else
      let acc :=
        if memK relationships father_id ∧ father_id ≠ "0" then
          addEdge (create_node relationships acc0 father_id) father_id fid
            (edge_color relationships father_id)
        else acc0
      if memK relationships mother_id ∧ mother_id ≠ "0" then
        addEdge (create_node relationships acc mother_id) mother_id fid
          (edge_color relationships mother_id)
      else acc
  let acc := create_node relationships acc fid
  let acc := mates.foldl (fun acc mate => create_node relationships acc mate) acc
  (relationships.foldl
    (fun acc p =>
      let cpid := p.2.father_id
      let cmid := p.2.mother_id
      if (cpid = fid ∨ cpid ∈ mates) ∨ (cmid = fid ∨ cmid ∈ mates) then
        let acc := create_node relationships acc p.1
        let acc := if cpid = fid ∨ cpid ∈ mates then
            addEdge acc cpid p.1 (edge_color relationships cpid)
          else acc
        if cmid = fid ∨ cmid ∈ mates then
          addEdge acc cmid p.1 (edge_color relationships cmid)
        else acc
      else acc)
    acc).1

/-- The DOT graph `generate_graph` builds before piping it to the layout
engine. The focused branch is taken when `FOCUS_ID` is truthy (non-`None`,
non-empty) and a key of the store (`pedigree.py`, line 198). -/
def buildGraph (relationships : Store) (FOCUS_ID : Option String) : Dot :=
  match FOCUS_ID with
  | some fid =>
    if fid ≠ "" ∧ memK relationships fid then focusedGraph relationships fid
    else unfocusedGraph relationships ({}, [])
  | none => unfocusedGraph relationships ({}, [])

/-- `generate_graph` (`pedigree.py`, lines 138-262). The external
`dot.pipe(format="png")` call is a parameter `pipe` that may fail; the
`try/except` around it turns a failure into `st.error(...)` plus `None`.
The result pairs the optional PNG bytes with the list of reported errors. -/
def generate_graph (pipe : Dot → Except String String) (relationships : Store)
    (FOCUS_ID : Option String) : Option String × List String :=
  if relationships.isEmpty then (none, [])
  else
    match pipe (buildGraph relationships FOCUS_ID) with
    | Except.ok png => (some png, [])
    | Except.error error => (none, ["Error generating PNG: " ++ error])

/-- A record with no parents, male, all optional fields absent. -/
def rBlank : Record := ⟨"0", "0", "1", "N/A", "N/A", "N/A"⟩

/-- Female variant of `rBlank`. -/
def rBlankF : Record := ⟨"0", "0", "2", "N/A", "N/A", "N/A"⟩

/-- The child record of the spec's scenario: father `A1`, mother `A2`. -/
def rA3 : Record := ⟨"A1", "A2", "1", "B123", "1999", "N/A"⟩

/-- The three-individual family of the spec's scenario. -/
def exFam : Store := [("A1", rBlank), ("A2", rBlankF), ("A3", rA3)]

/-- A store whose only record lists parents absent from the store. -/
def rcOrph : Record := ⟨"a", "b", "1", "N/A", "N/A", "N/A"⟩

/-- Store containing just the orphan child `c`. -/
def exOrph : Store := [("c", rcOrph)]

/-- A record that is its own father (and a mate candidate of itself). -/
def rSelf : Record := ⟨"F", "0", "1", "N/A", "1999", "N/A"⟩

/-- Store whose focal individual is listed as its own father. -/
def exSelf : Store := [("F", rSelf)]

/-- A record listing the same id as both father and mother. -/
def rSelfC : Record := ⟨"a", "a", "1", "N/A", "N/A", "N/A"⟩

/-- Store in which `a` co-parents a child with itself. -/
def exSelfMate : Store := [("a", rBlank), ("c", rSelfC)]

/-- Store containing the empty string as a key, plus an unrelated individual. -/
def exEmptyKey : Store := [("", rBlank), ("x", rBlank)]

example : get_mates exFam "A1" = ["A2"] := by decide
example : get_mates exFam "A2" = ["A1"] := by decide
example : get_mates exOrph "a" = [] := by decide
example : get_mates exSelfMate "a" = ["a", "a"] := by decide
example : filter_family exFam "A3" none =
    [("A3", rA3), ("A1", rBlank), ("A2", rBlankF)] := by decide
example : filter_family exFam "A3" (some "2000") =
    [("A3", rA3), ("A1", rBlank), ("A2", rBlankF)] := by decide
example : filter_family exFam "A1" (some "2000") =
    [("A1", rBlank), ("A2", rBlankF)] := by decide
example : filter_family exFam "A1" (some "1999") = exFam := by decide
example : filter_family exEmptyKey "" none = exEmptyKey := by decide
example : getV (filter_family exSelf "F" (some "2000")) "F" = some rSelf := by
  decide

theorem getV_setV (s : Store) (k : String) (v : Record) (k' : String) :
    getV (setV s k v) k' = if k' = k then some v else getV s k' := by
  induction s with
  | nil =>
    by_cases h : k = k'
    · subst h
      simp [setV, getV]
    · have h2 : ¬(k' = k) := fun h'' => h h''.symm
      simp [setV, getV, h, h2]
  | cons p rest ih =>
    obtain ⟨a, b⟩ := p
    simp only [setV]
    by_cases hak : a = k
    · rw [if_pos hak]
      subst hak
      by_cases h : a = k'
      · subst h
        simp [getV]
      · have h2 : ¬(k' = a) := fun h'' => h h''.symm
        simp [getV, h, h2]
    · rw [if_neg hak]
      by_cases h : a = k'
      · subst h
        simp [getV, hak]
      · simp [getV, h, ih]

theorem getV_eq_none_of_not_memKeys (s : Store) (k : String) :
    k ∉ s.map Prod.fst → getV s k = none := by
  induction s with
  | nil => intro _; rfl
  | cons p rest ih =>
    obtain ⟨a, b⟩ := p
    intro h
    simp only [List.map_cons, List.mem_cons] at h
    push_neg at h
    have h2 : ¬(a = k) := fun h' => h.1 h'.symm
    simp [getV, h2, ih h.2]

theorem memK_iff_getV (s : Store) (k : String) :
    memK s k = true ↔ ∃ r, getV s k = some r := by
  cases h : getV s k <;> simp [memK, h]

theorem getD_eq_of_getV (s : Store) (k : String) (r : Record)
    (h : getV s k = some r) : getD s k = r := by
  simp [getD, h]

theorem keysNodup_cons (p : String × Record) (rest : Store) :
    keysNodup (p :: rest) ↔ p.1 ∉ rest.map Prod.fst ∧ keysNodup rest := by
  simp [keysNodup]

theorem mem_foldr_mateCandidates (relationships : Store) (individual_id x : String) :
    ∀ items : Store,
      (x ∈ items.foldr
        (fun p acc => mateCandidates relationships individual_id p ++ acc) [] ↔
      ∃ p ∈ items, x ∈ mateCandidates relationships individual_id p) := by
  intro items
  induction items with
  | nil => simp
  | cons q rest ih => simp [List.mem_append, ih]

theorem mem_mateCandidates (relationships : Store) (individual_id x : String)
    (p : String × Record) :
    x ∈ mateCandidates relationships individual_id p ↔
      ((p.2.father_id = individual_id ∧ memK relationships p.2.mother_id ∧
          p.2.mother_id ≠ "0" ∧ x = p.2.mother_id) ∨
        (p.2.mother_id = individual_id ∧ memK relationships p.2.father_id ∧
          p.2.father_id ≠ "0" ∧ x = p.2.father_id)) := by
  unfold mateCandidates
  by_cases hf : p.2.father_id = individual_id ∧ memK relationships p.2.mother_id ∧
      p.2.mother_id ≠ "0" <;>
    by_cases hm : p.2.mother_id = individual_id ∧ memK relationships p.2.father_id ∧
      p.2.father_id ≠ "0" <;>
    simp [hf, hm] <;> tauto

theorem mem_get_mates (relationships : Store) (individual_id x : String) :
    x ∈ get_mates relationships individual_id ↔
      memK relationships individual_id ∧
      ∃ p ∈ relationships,
        ((p.2.father_id = individual_id ∧ memK relationships p.2.mother_id ∧
            p.2.mother_id ≠ "0" ∧ x = p.2.mother_id) ∨
          (p.2.mother_id = individual_id ∧ memK relationships p.2.father_id ∧
            p.2.father_id ≠ "0" ∧ x = p.2.father_id)) := by
  unfold get_mates
  by_cases h : memK relationships individual_id
  · simp only [h, if_pos, mem_foldr_mateCandidates, mem_mateCandidates, true_and]
  · simp [h]

theorem get_mates_memK (relationships : Store) (individual_id x : String)
    (h : x ∈ get_mates relationships individual_id) :
    memK relationships x ∧ x ≠ "0" := by
  rw [mem_get_mates] at h
  obtain ⟨-, p, -, hp | hp⟩ := h
  · exact ⟨hp.2.2.2 ▸ hp.2.1, hp.2.2.2 ▸ hp.2.2.1⟩
  · exact ⟨hp.2.2.2 ▸ hp.2.1, hp.2.2.2 ▸ hp.2.2.1⟩

theorem getV_matesFoldl (relationships : Store) (ms : List String) :
    ∀ (fam : Store) (k : String),
      getV (ms.foldl
        (fun fam mate_id => setV fam mate_id (getD relationships mate_id)) fam) k =
      if k ∈ ms then some (getD relationships k) else getV fam k := by
  induction ms with
  | nil => intro fam k; simp
  | cons m rest ih =>
    intro fam k
    rw [List.foldl_cons, ih]
    by_cases hk : k ∈ rest
    · simp [hk]
    · by_cases hkm : k = m
      · subst hkm
        simp [hk, getV_setV]
      · simp [hk, hkm, getV_setV]

theorem getV_condInsert (c : Prop) [Decidable c] (relationships fam : Store)
    (key k : String) :
    getV (if c then setV fam key (getD relationships key) else fam) k =
      if c ∧ k = key then some (getD relationships k) else getV fam k := by
  by_cases hc : c
  · rw [if_pos hc, getV_setV]
    by_cases hk : k = key
    · subst hk
      simp [hc]
    · simp [hc, hk]
  · simp [hc]

theorem getV_withParents (relationships : Store) (F : String) (recF : Record)
    (hF : getV relationships F = some recF) (k : String) :
    getV (withParents relationships F) k =
      if k = F ∨
          ((memK relationships recF.father_id ∧ recF.father_id ≠ "0") ∧
            k = recF.father_id) ∨
          ((memK relationships recF.mother_id ∧ recF.mother_id ≠ "0") ∧
            k = recF.mother_id)
      then some (getD relationships k) else none := by
  have hD : getD relationships F = recF := getD_eq_of_getV _ _ _ hF
  simp only [withParents, hD]
  rw [getV_condInsert, getV_condInsert, getV_setV]
  by_cases h1 : k = F <;> by_cases h2 : k = recF.father_id <;>
    by_cases h3 : k = recF.mother_id <;>
    simp_all [getV]

theorem getV_familyCore (relationships : Store) (F : String) (recF : Record)
    (hF : getV relationships F = some recF) (ms : List String) (k : String) :
    getV (familyCore relationships F ms) k =
      if k ∈ ms ∨ k = F ∨
          ((memK relationships recF.father_id ∧ recF.father_id ≠ "0") ∧
            k = recF.father_id) ∨
          ((memK relationships recF.mother_id ∧ recF.mother_id ≠ "0") ∧
            k = recF.mother_id)
      then some (getD relationships k) else none := by
  unfold familyCore
  rw [getV_matesFoldl, getV_withParents relationships F recF hF]
  by_cases hm : k ∈ ms
  · simp [hm]
  · simp [hm]

theorem getV_childFoldl (individual_id : String) (mates : List String)
    (filter_year : Option String) :
    ∀ (items : Store), keysNodup items → ∀ (fam : Store) (k : String),
      getV (items.foldl (childStep individual_id mates filter_year) fam) k =
        match getV items k with
        | none => getV fam k
        | some r =>
          if (r.father_id = individual_id ∨ r.mother_id = individual_id ∨
              r.father_id ∈ mates ∨ r.mother_id ∈ mates) ∧
              (filter_year = none ∨ filter_year = some r.hatch_year)
          then some r else getV fam k := by
  intro items
  induction items with
  | nil =>
    intro _ fam k
    simp [getV]
  | cons p rest ih =>
    obtain ⟨a, b⟩ := p
    intro hnd fam k
    rw [keysNodup_cons] at hnd
    rw [List.foldl_cons, ih hnd.2]
    have hstep : ∀ fam' : Store,
        getV (childStep individual_id mates filter_year fam' (a, b)) k =
          if ((b.father_id = individual_id ∨ b.mother_id = individual_id ∨
              b.father_id ∈ mates ∨ b.mother_id ∈ mates) ∧
              (filter_year = none ∨ filter_year = some b.hatch_year)) ∧ k = a
          then some b else getV fam' k := by
      intro fam'
      unfold childStep
      by_cases hc : b.father_id = individual_id ∨ b.mother_id = individual_id ∨
          b.father_id ∈ mates ∨ b.mother_id ∈ mates
      · rw [if_pos hc]
        cases filter_year with
        | none =>
          show getV (setV fam' a b) k = _
          rw [getV_setV]
          by_cases hk : k = a <;> simp [hk, hc]
        | some y =>
          show getV (if b.hatch_year = y then setV fam' a b else fam') k = _
          by_cases hy : b.hatch_year = y
          · rw [if_pos hy, getV_setV]
            by_cases hk : k = a <;> simp [hk, hc, hy]
          · rw [if_neg hy]
            have hy2 : ¬(some y = some b.hatch_year) := by
              intro h
              exact hy (Option.some.inj h).symm
            simp [hc, hy2]
      · rw [if_neg hc]
        simp [hc]
    by_cases hka : k = a
    · subst hka
      have hrest : getV rest k = none :=
        getV_eq_none_of_not_memKeys rest k hnd.1
      rw [hrest, hstep]
      simp [getV]
    · have h3 : ¬(a = k) := fun h => hka h.symm
      have hcons : getV ((a, b) :: rest) k = getV rest k := by
        simp [getV, h3]
      rw [hcons, hstep]
      have h2 : ¬(((b.father_id = individual_id ∨ b.mother_id = individual_id ∨
          b.father_id ∈ mates ∨ b.mother_id ∈ mates) ∧
          (filter_year = none ∨ filter_year = some b.hatch_year)) ∧ k = a) :=
        fun h => hka h.2
      rw [if_neg h2]

theorem filter_family_pass (relationships : Store) (individual_id : String)
    (filter_year : Option String)
    (h : individual_id = "" ∨ ¬ memK relationships individual_id) :
    filter_family relationships individual_id filter_year = relationships := by
  unfold filter_family
  rw [if_pos h]

theorem getV_filter_family_some (relationships : Store)
    (hnd : keysNodup relationships) (F : String) (recF : Record) (hne : F ≠ "")
    (hF : getV relationships F = some recF) (fy : Option String) (k : String)
    (r : Record) :
    getV (filter_family relationships F fy) k = some r ↔
      getV relationships k = some r ∧
        (((r.father_id = F ∨ r.mother_id = F ∨
            r.father_id ∈ get_mates relationships F ∨
            r.mother_id ∈ get_mates relationships F) ∧
          (fy = none ∨ fy = some r.hatch_year)) ∨
         (k ∈ get_mates relationships F ∨ k = F ∨
          ((memK relationships recF.father_id ∧ recF.father_id ≠ "0") ∧
            k = recF.father_id) ∨
          ((memK relationships recF.mother_id ∧ recF.mother_id ≠ "0") ∧
            k = recF.mother_id))) := by
  have hmemF : memK relationships F = true := by simp [memK, hF]
  have hguard : ¬(F = "" ∨ ¬ memK relationships F) := by simp [hne, hmemF]
  unfold filter_family
  rw [if_neg hguard,
    getV_childFoldl F (get_mates relationships F) fy relationships hnd,
    getV_familyCore relationships F recF hF]
  cases hk : getV relationships k with
  | none =>
    have hmemk : ¬(memK relationships k = true) := by simp [memK, hk]
    have hbase : ¬(k ∈ get_mates relationships F ∨ k = F ∨
        ((memK relationships recF.father_id ∧ recF.father_id ≠ "0") ∧
          k = recF.father_id) ∨
        ((memK relationships recF.mother_id ∧ recF.mother_id ≠ "0") ∧
          k = recF.mother_id)) := by
      rintro (hm | rfl | ⟨⟨hfa, -⟩, rfl⟩ | ⟨⟨hmo, -⟩, rfl⟩)
      · exact hmemk (get_mates_memK relationships F k hm).1
      · rw [hF] at hk
        cases hk
      · exact hmemk hfa
      · exact hmemk hmo
    simp [hbase]
  | some r' =>
    have hD : getD relationships k = r' := getD_eq_of_getV _ _ _ hk
    rw [hD]
    show (if (r'.father_id = F ∨ r'.mother_id = F ∨
        r'.father_id ∈ get_mates relationships F ∨
        r'.mother_id ∈ get_mates relationships F) ∧
        (fy = none ∨ fy = some r'.hatch_year)
      then some r'
      else if k ∈ get_mates relationships F ∨ k = F ∨
          ((memK relationships recF.father_id ∧ recF.father_id ≠ "0") ∧
            k = recF.father_id) ∨
          ((memK relationships recF.mother_id ∧ recF.mother_id ≠ "0") ∧
            k = recF.mother_id)
        then some r' else none) = some r ↔ _
    constructor
    · intro h
      by_cases h1 : (r'.father_id = F ∨ r'.mother_id = F ∨
          r'.father_id ∈ get_mates relationships F ∨
          r'.mother_id ∈ get_mates relationships F) ∧
          (fy = none ∨ fy = some r'.hatch_year)
      · rw [if_pos h1] at h
        obtain rfl : r' = r := Option.some.inj h
        exact ⟨rfl, Or.inl h1⟩
      · rw [if_neg h1] at h
        by_cases h2 : k ∈ get_mates relationships F ∨ k = F ∨
            ((memK relationships recF.father_id ∧ recF.father_id ≠ "0") ∧
              k = recF.father_id) ∨
            ((memK relationships recF.mother_id ∧ recF.mother_id ≠ "0") ∧
              k = recF.mother_id)
        · rw [if_pos h2] at h
          obtain rfl : r' = r := Option.some.inj h
          exact ⟨rfl, Or.inr h2⟩
        · rw [if_neg h2] at h
          cases h
    · rintro ⟨h1, h2 | h2⟩
      · obtain rfl : r' = r := Option.some.inj h1
        rw [if_pos h2]
      · obtain rfl : r' = r := Option.some.inj h1
        by_cases h3 : (r'.father_id = F ∨ r'.mother_id = F ∨
            r'.father_id ∈ get_mates relationships F ∨
            r'.mother_id ∈ get_mates relationships F) ∧
            (fy = none ∨ fy = some r'.hatch_year)
        · rw [if_pos h3]
        · rw [if_neg h3, if_pos h2]

theorem parseStep_skip (state : List String × Store) (line : String)
    (h : pyStrip line = "" ∨ pyStrip line ∈ state.1) :
    parseStep state line = Except.ok state := by
  unfold parseStep
  rcases h with h | h
  · rw [if_pos h]
  · by_cases h0 : pyStrip line = ""
    · rw [if_pos h0]
    · rw [if_neg h0, if_pos h]

theorem parseStep_ok_seen (state state' : List String × Store) (line : String)
    (h : parseStep state line = Except.ok state') :
    state.1 ⊆ state'.1 ∧ (pyStrip line ≠ "" → pyStrip line ∈ state'.1) := by
  unfold parseStep at h
  by_cases h0 : pyStrip line = ""
  · rw [if_pos h0] at h
    obtain rfl : state = state' := Except.ok.inj h
    exact ⟨fun _ hx => hx, fun hne => (hne h0).elim⟩
  · rw [if_neg h0] at h
    by_cases h1 : pyStrip line ∈ state.1
    · rw [if_pos h1] at h
      obtain rfl : state = state' := Except.ok.inj h
      exact ⟨fun _ hx => hx, fun _ => h1⟩
    · rw [if_neg h1] at h
      by_cases h2 : (pySplit (pyStrip line) ',').length < 7
      · rw [if_pos h2] at h
        obtain rfl : (pyStrip line :: state.1, state.2) = state' := Except.ok.inj h
        exact ⟨fun x hx => List.mem_cons_of_mem _ hx, fun _ => List.mem_cons_self _ _⟩
      · rw [if_neg h2] at h
        cases hpf : parseFields state.2 (pySplit (pyStrip line) ',') with
        | ok store' =>
          rw [hpf] at h
          obtain rfl : (pyStrip line :: state.1, store') = state' := Except.ok.inj h
          exact ⟨fun x hx => List.mem_cons_of_mem _ hx, fun _ => List.mem_cons_self _ _⟩
        | error e =>
          rw [hpf] at h
          cases h

theorem parseLinesAux_ok_seen (lines : List String) :
    ∀ state state' : List String × Store,
      parseLinesAux state lines = Except.ok state' →
      state.1 ⊆ state'.1 ∧
        ∀ l ∈ lines, pyStrip l ≠ "" → pyStrip l ∈ state'.1 := by
  induction lines with
  | nil =>
    intro state state' h
    obtain rfl : state = state' := Except.ok.inj h
    exact ⟨fun _ hx => hx, by simp⟩
  | cons line rest ih =>
    intro state state' h
    unfold parseLinesAux at h
    cases hstep : parseStep state line with
    | ok mid =>
      rw [hstep] at h
      obtain ⟨hsub1, hmem1⟩ := parseStep_ok_seen state mid line hstep
      obtain ⟨hsub2, hmem2⟩ := ih mid state' h
      refine ⟨fun x hx => hsub2 (hsub1 hx), ?_⟩
      intro l hl hlne
      rcases List.mem_cons.1 hl with rfl | hl'
      · exact hsub2 (hmem1 hlne)
      · exact hmem2 l hl' hlne
    | error e =>
      rw [hstep] at h
      cases h

theorem parseLinesAux_cons (state : List String × Store) (line : String)
    (rest : List String) :
    parseLinesAux state (line :: rest) =
      match parseStep state line with
      | Except.ok state' => parseLinesAux state' rest
      | Except.error e => Except.error e := rfl

theorem parseLinesAux_append (pre rest : List String) :
    ∀ state : List String × Store,
      parseLinesAux state (pre ++ rest) =
        match parseLinesAux state pre with
        | Except.ok s => parseLinesAux s rest
        | Except.error e => Except.error e := by
  induction pre with
  | nil => intro state; rfl
  | cons line pre ih =>
    intro state
    rw [List.cons_append, parseLinesAux_cons, parseLinesAux_cons]
    cases hstep : parseStep state line with
    | ok mid => exact ih mid
    | error e => rfl

/-- A layout-engine stub that always fails, standing for an unavailable
graphviz executable. -/
def failPipe : Dot → Except String String :=
  fun _ => Except.error "graphviz executable not found"

/-- Claim C1: the spec states that `parse_ped_file` never raises and that
every malformed line is silently dropped. The code only guards
`len(parts) < 7` and then unpacks exactly seven fields, so a line with more
than seven comma-separated fields raises `ValueError: too many values to
unpack`. Evaluating the embedding at an eight-field line exhibits the error
the spec says cannot happen. -/
theorem parse_raises_on_eight_fields :
    parse_ped_file "a,b,c,d,e,f,g,h" =
      Except.error "ValueError: too many values to unpack (expected 7)" := rfl

/-- Claim C5: calling `filter_family` with an empty focal identifier or one
that is not a key of the store returns the full input store unchanged, for
any year filter. -/
theorem filter_family_passthrough (relationships : Store)
    (individual_id : String) (filter_year : Option String)
    (h : individual_id = "" ∨ getV relationships individual_id = none) :
    filter_family relationships individual_id filter_year = relationships := by
  apply filter_family_pass
  rcases h with h | h
  · exact Or.inl h
  · exact Or.inr (by simp [memK, h])

/-- Witness for C5 at a concrete store and an unknown focal id. -/
theorem filter_family_passthrough_w :
    filter_family exFam "nope" none = exFam :=
  filter_family_passthrough exFam "nope" none (Or.inr (by decide))

/-- Claim C6: a successfully parsed 7-field line stores a record whose
`usgs_band_id` is `"N/A"` exactly when the raw value is `"0"`, whose
`aux_id` is `"N/A"` exactly when the raw value is `"0"`, whose `hatch_year`
is `"N/A"` exactly when the raw value is empty (so a raw `"0"` stays `"0"`),
and whose sex and parent ids are stored verbatim. -/
theorem parse_normalizes (state : List String × Store)
    (line iid fid mid sx ub hy ax : String)
    (hne : pyStrip line ≠ "") (hseen : pyStrip line ∉ state.1)
    (hsplit : pySplit (pyStrip line) ',' = [iid, fid, mid, sx, ub, hy, ax]) :
    ∃ r : Record,
      parseStep state line =
        Except.ok (pyStrip line :: state.1, setV state.2 iid r) ∧
      r.father_id = fid ∧ r.mother_id = mid ∧ r.sex = sx ∧
      (ub = "0" → r.usgs_band_id = "N/A") ∧ (ub ≠ "0" → r.usgs_band_id = ub) ∧
      (ax = "0" → r.aux_id = "N/A") ∧ (ax ≠ "0" → r.aux_id = ax) ∧
      (hy = "" → r.hatch_year = "N/A") ∧ (hy ≠ "" → r.hatch_year = hy) ∧
      (hy = "0" → r.hatch_year = "0") := by
  refine ⟨⟨fid, mid, sx, if ub ≠ "0" then ub else "N/A",
      if hy ≠ "" then hy else "N/A", if ax ≠ "0" then ax else "N/A"⟩,
    ?_, rfl, rfl, rfl, ?_, ?_, ?_, ?_, ?_, ?_, ?_⟩
  · unfold parseStep
    rw [if_neg hne, if_neg hseen]
    simp only [hsplit, List.length_cons, List.length_nil, parseFields]
    norm_num
  · intro h
    simp [h]
  · intro h
    simp [h]
  · intro h
    simp [h]
  · intro h
    simp [h]
  · intro h
    simp [h]
  · intro h
    simp [h]
  · intro h
    have h2 : hy ≠ "" := by simp [h]
    simp [h2, h]

/-- Witness for C6 at the concrete line `x,0,0,1,0,,0`. -/
theorem parse_normalizes_w :
    ∃ r : Record,
      parseStep (([] : List String), ([] : Store)) "x,0,0,1,0,,0" =
        Except.ok (pyStrip "x,0,0,1,0,,0" :: ([] : List String),
          setV ([] : Store) "x" r) ∧
      r.father_id = "0" ∧ r.mother_id = "0" ∧ r.sex = "1" ∧
      ("0" = "0" → r.usgs_band_id = "N/A") ∧ ("0" ≠ "0" → r.usgs_band_id = "0") ∧
      ("0" = "0" → r.aux_id = "N/A") ∧ ("0" ≠ "0" → r.aux_id = "0") ∧
      ("" = "" → r.hatch_year = "N/A") ∧ ("" ≠ "" → r.hatch_year = "") ∧
      ("" = "0" → r.hatch_year = "0") :=
  parse_normalizes ([], []) "x,0,0,1,0,,0" "x" "0" "0" "1" "0" "" "0"
    (by decide) (by decide) (by decide)

/-- Claim C7: a line whose trimmed text already occurred earlier in the input
is silently skipped, so parsing an input containing such a duplicate yields
exactly the same result as parsing the input with the later occurrence
removed — the first occurrence wins. -/
theorem parse_dedup (contents contents2 : String) (pre post : List String)
    (d : String)
    (h1 : pySplit contents '\n' = pre ++ d :: post)
    (h2 : pySplit contents2 '\n' = pre ++ post)
    (hdup : ∃ l ∈ pre, pyStrip l = pyStrip d) :
    parse_ped_file contents = parse_ped_file contents2 := by
  unfold parse_ped_file parseLines
  rw [h1, h2, parseLinesAux_append, parseLinesAux_append]
  cases hpre : parseLinesAux ([], []) pre with
  | error e => rfl
  | ok s =>
    obtain ⟨l, hl, hld⟩ := hdup
    have hskip : parseStep s d = Except.ok s := by
      by_cases hde : pyStrip d = ""
      · exact parseStep_skip s d (Or.inl hde)
      · have hlne : pyStrip l ≠ "" := by
          rw [hld]
          exact hde
        have hmem : pyStrip l ∈ s.1 :=
          (parseLinesAux_ok_seen pre ([], []) s hpre).2 l hl hlne
        rw [hld] at hmem
        exact parseStep_skip s d (Or.inr hmem)
    show Except.map (fun st => st.2) (parseLinesAux s (d :: post)) =
      Except.map (fun st => st.2) (parseLinesAux s post)
    rw [parseLinesAux_cons, hskip]

/-- Witness for C7: the spec's duplicate-line scenario. -/
theorem parse_dedup_w :
    parse_ped_file "x,0,0,1,0,,0\nx,0,0,1,0,,0" = parse_ped_file "x,0,0,1,0,,0" :=
  parse_dedup _ _ ["x,0,0,1,0,,0"] [] "x,0,0,1,0,,0" (by decide) (by decide)
    ⟨"x,0,0,1,0,,0", by decide, rfl⟩

/-- Claim C3 counterexample: the claim omits the guards of `get_mates`. In a
store whose only record `c` lists father `a` and mother `b` with neither
parent a key of the store, `get_mates` returns the empty set for `a`
(the early `individual_id not in relationships` return), so `b` is not in
`a`'s mate set even though `c` has father `a` and mother `b`. -/
theorem get_mates_symm_cex :
    getV exOrph "c" = some rcOrph ∧ rcOrph.father_id = "a" ∧
    rcOrph.mother_id = "b" ∧
    ¬("b" ∈ get_mates exOrph "a" ∧ "a" ∈ get_mates exOrph "b") := by decide

/-- Claim C3 (amended): mate symmetry holds for parents that are themselves
keys of the store and distinct from the sentinel `"0"`: if some individual
`c` in the store has father `A` and mother `B`, and `A` and `B` are both
present in the store and neither is `"0"`, then `B` is in `A`'s mate set and
`A` is in `B`'s mate set. -/
theorem get_mates_symm (relationships : Store) (c : String) (rec : Record)
    (A B : String) (hc : (c, rec) ∈ relationships) (hf : rec.father_id = A)
    (hm : rec.mother_id = B) (hA : memK relationships A)
    (hB : memK relationships B) (hA0 : A ≠ "0") (hB0 : B ≠ "0") :
    B ∈ get_mates relationships A ∧ A ∈ get_mates relationships B := by
  constructor
  · rw [mem_get_mates]
    refine ⟨hA, (c, rec), hc, Or.inl ⟨hf, ?_, ?_, hm.symm⟩⟩
    · rw [hm]
      exact hB
    · rw [hm]
      exact hB0
  · rw [mem_get_mates]
    refine ⟨hB, (c, rec), hc, Or.inr ⟨hm, ?_, ?_, hf.symm⟩⟩
    · rw [hf]
      exact hA
    · rw [hf]
      exact hA0

/-- Witness for the amended C3 on the spec's scenario store. -/
theorem get_mates_symm_w :
    "A2" ∈ get_mates exFam "A1" ∧ "A1" ∈ get_mates exFam "A2" :=
  get_mates_symm exFam "A3" rA3 "A1" "A2" (by decide) rfl rfl
    (by decide) (by decide) (by decide) (by decide)

/-- Claim C10: every member of a mate set is a key of the store and is never
the sentinel `"0"`; an identifier that is not a key has an empty mate set;
and the mate set may contain the queried identifier itself, as in the store
where `a` is listed as both father and mother of one child. -/
theorem get_mates_invariant (relationships : Store) (individual_id : String) :
    (∀ m ∈ get_mates relationships individual_id,
      memK relationships m ∧ m ≠ "0") ∧
    (¬ memK relationships individual_id →
      get_mates relationships individual_id = []) ∧
    "a" ∈ get_mates exSelfMate "a" := by
  refine ⟨fun m hm => get_mates_memK relationships individual_id m hm, ?_,
    by decide⟩
  intro h
  unfold get_mates
  rw [if_neg h]

/-- Witness for C10: a concrete mate is a non-sentinel key. -/
theorem get_mates_invariant_w :
    memK exFam "A2" ∧ "A2" ≠ "0" :=
  (get_mates_invariant exFam "A1").1 "A2" (by decide)

/-- Claim C2 counterexample: the claim's "iff" fails for an individual that
is included for another reason. In a store whose focal individual `F` lists
itself as father, `F` satisfies the child condition (its father is the focal
id), its hatch year `1999` differs from the filter `2000`, yet it is
included in the filtered result (as the focal individual). -/
theorem year_filter_cex :
    rSelf.father_id = "F" ∧ rSelf.hatch_year ≠ "2000" ∧
    getV (filter_family exSelf "F" (some "2000")) "F" = some rSelf := by decide

/-- Claim C2 (amended): with a non-empty focal id `F` present in the store
and a year filter, (a) every individual satisfying the child condition whose
`hatch_year` equals the filter string is included, and (b) an individual
that is not `F`, not a valid parent of `F`, and not in `F`'s mate set is
included if and only if it satisfies the child condition and its
`hatch_year` exactly equals the filter string. -/
theorem year_filter_amended (relationships : Store)
    (hnd : keysNodup relationships) (F : String) (recF : Record) (hne : F ≠ "")
    (hF : getV relationships F = some recF) (y : String) (k : String)
    (r : Record) (hk : getV relationships k = some r) :
    ((r.father_id = F ∨ r.mother_id = F ∨
        r.father_id ∈ get_mates relationships F ∨
        r.mother_id ∈ get_mates relationships F) ∧ r.hatch_year = y →
      getV (filter_family relationships F (some y)) k = some r) ∧
    (k ≠ F →
      ¬((memK relationships recF.father_id ∧ recF.father_id ≠ "0") ∧
        k = recF.father_id) →
      ¬((memK relationships recF.mother_id ∧ recF.mother_id ≠ "0") ∧
        k = recF.mother_id) →
      k ∉ get_mates relationships F →
      (getV (filter_family relationships F (some y)) k = some r ↔
        (r.father_id = F ∨ r.mother_id = F ∨
          r.father_id ∈ get_mates relationships F ∨
          r.mother_id ∈ get_mates relationships F) ∧ r.hatch_year = y)) := by
  have hmaster :=
    getV_filter_family_some relationships hnd F recF hne hF (some y) k r
  constructor
  · rintro ⟨hchild, hy⟩
    rw [hmaster]
    refine ⟨hk, Or.inl ⟨hchild, Or.inr ?_⟩⟩
    rw [hy]
  · intro h1 h2 h3 h4
    rw [hmaster]
    constructor
    · rintro ⟨-, hcase | hcase⟩
      · refine ⟨hcase.1, ?_⟩
        rcases hcase.2 with h | h
        · cases h
        · exact (Option.some.inj h).symm
      · rcases hcase with h | h | h | h
        · exact (h4 h).elim
        · exact (h1 h).elim
        · exact (h2 h).elim
        · exact (h3 h).elim
    · rintro ⟨hchild, hy⟩
      refine ⟨hk, Or.inl ⟨hchild, Or.inr ?_⟩⟩
      rw [hy]

/-- Witness for the amended C2: the spec scenario's child `A3` is included
when filtering `A1`'s family by hatch year `1999`. -/
theorem year_filter_amended_w :
    getV (filter_family exFam "A1" (some "1999")) "A3" = some rA3 :=
  (year_filter_amended exFam (by decide) "A1" rBlank (by decide) (by decide)
    "1999" "A3" rA3 (by decide)).1 (by decide)

/-- Claim C4 counterexample: the claim quantifies over every focal id present
in the store, but the code treats the empty string as falsy and returns the
whole store unchanged even when `""` is a key. In a store with keys `""` and
`x`, filtering on the present focal id `""` keeps `x`, although `x` is not
the focal id, not a valid parent, not a mate, and not a child of the focal
id or a mate. -/
theorem filter_closure_cex :
    getV (filter_family exEmptyKey "" none) "x" = some rBlank ∧
    ¬("x" = "" ∨
      ((memK exEmptyKey rBlank.father_id ∧ rBlank.father_id ≠ "0") ∧
        "x" = rBlank.father_id) ∨
      ((memK exEmptyKey rBlank.mother_id ∧ rBlank.mother_id ≠ "0") ∧
        "x" = rBlank.mother_id) ∨
      "x" ∈ get_mates exEmptyKey "" ∨
      rBlank.father_id = "" ∨ rBlank.mother_id = "" ∨
      rBlank.father_id ∈ get_mates exEmptyKey "" ∨
      rBlank.mother_id ∈ get_mates exEmptyKey "") := by decide

/-- Claim C4 (amended): for every store and every non-empty focal id `F`
present in the store, filtering with no year filter returns exactly the ids
in the union of: `F`; `F`'s father and mother when present in the store and
not `"0"`; `F`'s mate set; and every id whose father or mother is `F` or is
in the mate set — each mapped to its original record. -/
theorem filter_closure_amended (relationships : Store)
    (hnd : keysNodup relationships) (F : String) (recF : Record) (hne : F ≠ "")
    (hF : getV relationships F = some recF) (k : String) (r : Record) :
    getV (filter_family relationships F none) k = some r ↔
      getV relationships k = some r ∧
        (k = F ∨
         ((memK relationships recF.father_id ∧ recF.father_id ≠ "0") ∧
           k = recF.father_id) ∨
         ((memK relationships recF.mother_id ∧ recF.mother_id ≠ "0") ∧
           k = recF.mother_id) ∨
         k ∈ get_mates relationships F ∨
         r.father_id = F ∨ r.mother_id = F ∨
         r.father_id ∈ get_mates relationships F ∨
         r.mother_id ∈ get_mates relationships F) := by
  rw [getV_filter_family_some relationships hnd F recF hne hF none k r]
  have h0 : (none : Option String) = none ∨ none = some r.hatch_year :=
    Or.inl rfl
  constructor
  · rintro ⟨h1, h2⟩
    refine ⟨h1, ?_⟩
    tauto
  · rintro ⟨h1, h2⟩
    refine ⟨h1, ?_⟩
    tauto

/-- Witness for the amended C4: `A1` is in `A3`'s filtered family as a valid
father. -/
theorem filter_closure_amended_w :
    getV (filter_family exFam "A3" none) "A1" = some rBlank :=
  (filter_closure_amended exFam (by decide) "A3" rA3 (by decide) (by decide)
    "A1" rBlank).mpr ⟨by decide, by decide⟩

/-- Claim C9: `filter_family` never mutates its input (immediate in this pure
embedding, in which every store operation builds a new list) and always
returns a sub-mapping of the input: every key of the result is a key of the
input bound to its original, unmodified record. -/
theorem filter_family_subset (relationships : Store)
    (hnd : keysNodup relationships) (individual_id : String)
    (filter_year : Option String) (k : String) (r : Record)
    (h : getV (filter_family relationships individual_id filter_year) k = some r) :
    getV relationships k = some r := by
  by_cases hguard : individual_id = "" ∨ ¬ memK relationships individual_id
  · rw [filter_family_pass relationships individual_id filter_year hguard] at h
    exact h
  · push_neg at hguard
    obtain ⟨hne, hmem⟩ := hguard
    obtain ⟨recF, hF⟩ := (memK_iff_getV relationships individual_id).1 hmem
    rw [getV_filter_family_some relationships hnd individual_id recF hne hF
      filter_year k r] at h
    exact h.1

/-- Witness for C9 on the spec scenario. -/
theorem filter_family_subset_w : getV exFam "A1" = some rBlank :=
  filter_family_subset exFam (by decide) "A3" none "A1" rBlank (by decide)

/-- Claim C8: `generate_graph` on an empty store returns the no-image signal
without consulting the layout engine (the first conjunct holds for every
`pipe`), and on a non-empty store a layout-engine failure is caught at the
renderer boundary and yields the no-image signal together with an error
report, while success yields the PNG bytes; the embedding is a total
function, mirroring that no exception escapes `generate_graph`. -/
theorem generate_graph_totality (pipe : Dot → Except String String)
    (relationships : Store) (FOCUS_ID : Option String) :
    (relationships = [] →
      generate_graph pipe relationships FOCUS_ID = (none, [])) ∧
    (relationships ≠ [] →
      ∀ e, pipe (buildGraph relationships FOCUS_ID) = Except.error e →
        generate_graph pipe relationships FOCUS_ID =
          (none, ["Error generating PNG: " ++ e])) ∧
    (relationships ≠ [] →
      ∀ png, pipe (buildGraph relationships FOCUS_ID) = Except.ok png →
        generate_graph pipe relationships FOCUS_ID = (some png, [])) := by
  refine ⟨?_, ?_, ?_⟩
  · rintro rfl
    rfl
  · intro hne e hp
    have hemp : ¬(relationships.isEmpty = true) := by
      cases relationships with
      | nil => exact (hne rfl).elim
      | cons p rest => simp
    unfold generate_graph
    rw [if_neg hemp, hp]
  · intro hne png hp
    have hemp : ¬(relationships.isEmpty = true) := by
      cases relationships with
      | nil => exact (hne rfl).elim
      | cons p rest => simp
    unfold generate_graph
    rw [if_neg hemp, hp]

/-- Witness for C8: a failing layout engine is caught and reported. -/
theorem generate_graph_totality_w :
    generate_graph failPipe exFam none =
      (none, ["Error generating PNG: " ++ "graphviz executable not found"]) :=
  (generate_graph_totality failPipe exFam none).2.1 (by decide)
    "graphviz executable not found" rfl
